import Mathlib

/-!
Shallow embedding of the Shielder admission-control pipeline:
the Redis-backed rate limiter (`internal/limiter`) and the gateway
request handler (`internal/proxy`).

The Redis store is modelled as a finite map from string keys to entries
carrying an integer value and an optional TTL (in nanoseconds, matching
Go `time.Duration` units; `none` means the key persists).  Store calls
can fail; failure of each call the code makes is driven by explicit
boolean fault flags, mirroring the `error` returns of the Go redis
client.  An error value is modelled by a boolean `errp` ("the returned
error is non-nil").
-/

namespace Shielder

/-- A stored Redis entry: integer value and optional TTL (none = no expiry). -/
structure Entry where
  val : Int
  ttl : Option Nat
deriving DecidableEq, Repr

/-- The Redis key space: string keys to optional entries. -/
def Store := String → Option Entry

/-- Write an entry at a key. -/
def Store.set (s : Store) (k : String) (e : Entry) : Store :=
  fun k2 => if k2 = k then some e else s k2

/-- Redis INCR: absent key is created at 1 (no TTL); an existing key's
integer value is incremented, preserving its TTL.  Returns the
post-increment value together with the updated store. -/
def Store.incr (s : Store) (k : String) : Int × Store :=
  match s k with
  | some e => (e.val + 1, s.set k ⟨e.val + 1, e.ttl⟩)
  | none => (1, s.set k ⟨1, none⟩)

/-- Redis EXPIRE: arm the TTL of an existing key; no effect if absent. -/
def Store.expire (s : Store) (k : String) (d : Nat) : Store :=
  match s k with
  | some e => s.set k ⟨e.val, some d⟩
  | none => s

/-- Redis SET with expiry: store a value with the given TTL. -/
def Store.setVal (s : Store) (k : String) (v : Int) (d : Nat) : Store :=
  s.set k ⟨v, some d⟩

/-- Redis EXISTS: the number (0 or 1) of the given keys that exist. -/
def Store.existsKey (s : Store) (k : String) : Int :=
  if (s k).isSome then 1 else 0

/-- Go `time.Minute` in nanoseconds. -/
def timeMinute : Nat := 60 * 1000000000

namespace limiter

/-- `limiter.Config` from the source: requests-per-minute threshold,
burst size, and block duration (a `time.Duration`, here in ns). -/
structure Config where
  RequestsPerMinute : Int
  BurstSize : Int
  BlockDuration : Nat
deriving DecidableEq, Repr

/-- `limiter.RateLimiter`: the redis client handle and logger carry no
admission-relevant state, so the model keeps only the configuration. -/
structure RateLimiter where
  config : Config
deriving DecidableEq, Repr

/-- The counter key used by `IsAllowed`: `"rate:" + ip`. -/
def rateKey (ip : String) : String := "rate:" ++ ip

/-- The block-flag key used by `BlockIP` and `IsBlocked`: `"blocked:" + ip`. -/
def blockedKey (ip : String) : String := "blocked:" ++ ip

/-- Result of a limiter call: the returned boolean, whether the returned
error is non-nil, and the store after the call. -/
structure CallResult where
  ok : Bool
  errp : Bool
  store : Store

/-- `RateLimiter.BlockIP`: `SET blocked:<ip> true EX blockDuration`.
Returns whether the write errored, and the resulting store (unchanged
when the write fails). -/
def RateLimiter.BlockIP (r : RateLimiter) (s : Store) (ip : String)
    (setFail : Bool) : Bool × Store :=
  if setFail then (true, s)
  else (false, s.setVal (blockedKey ip) 1 r.config.BlockDuration)

/-- The store after `IsAllowed`'s pipelined `INCR rate:<ip>` +
`EXPIRE rate:<ip> 60s` executes successfully. -/
def pipelineStore (s : Store) (ip : String) : Store :=
  Store.expire (Store.incr s (rateKey ip)).2 (rateKey ip) timeMinute

/-- `RateLimiter.IsAllowed`: pipelines `INCR rate:<ip>` and
`EXPIRE rate:<ip> 60s` as one submission (`pipeFail` makes the whole
pipeline fail, leaving the store unchanged and returning
`(false, err)`); then, if the post-increment count exceeds the
configured threshold, calls `BlockIP` and returns `(false, err)` where
`err` is `BlockIP`'s error; otherwise returns `(true, nil)`. -/
def RateLimiter.IsAllowed (r : RateLimiter) (s : Store) (ip : String)
    (pipeFail setFail : Bool) : CallResult :=
  if pipeFail then ⟨false, true, s⟩
  else if (Store.incr s (rateKey ip)).1 > r.config.RequestsPerMinute then
    ⟨false, (r.BlockIP (pipelineStore s ip) ip setFail).1,
      (r.BlockIP (pipelineStore s ip) ip setFail).2⟩
  else ⟨true, false, pipelineStore s ip⟩

/-- `RateLimiter.IsBlocked`: `EXISTS blocked:<ip>`, returning whether
exactly one such key exists; on store error returns `(false, err)`.
The store is never modified. -/
def RateLimiter.IsBlocked (_r : RateLimiter) (s : Store) (ip : String)
    (existsFail : Bool) : Bool × Bool :=
  if existsFail then (false, true)
  else (Store.existsKey s (blockedKey ip) == 1, false)

end limiter

namespace proxy

/-- Metrics state of `monitor.MetricsCollector`: per-path duration
observation counts and per-ip blocked/success counters. -/
structure Metrics where
  requestDuration : String → Nat
  blockedRequests : String → Nat
  successRequests : String → Nat

/-- `MetricsCollector.ObserveRequestDuration`: one more observation on
the path label. -/
def Metrics.observeRequestDuration (m : Metrics) (path : String) : Metrics :=
  { m with requestDuration :=
      fun p => if p = path then m.requestDuration p + 1 else m.requestDuration p }

/-- `MetricsCollector.IncBlockedRequests`. -/
def Metrics.incBlockedRequests (m : Metrics) (ip : String) : Metrics :=
  { m with blockedRequests :=
      fun i => if i = ip then m.blockedRequests i + 1 else m.blockedRequests i }

/-- `MetricsCollector.IncSuccessfulRequests`. -/
def Metrics.incSuccessfulRequests (m : Metrics) (ip : String) : Metrics :=
  { m with successRequests :=
      fun i => if i = ip then m.successRequests i + 1 else m.successRequests i }

/-- `proxy.Server`: of its fields only the rate limiter is
admission-relevant; the target URL is abstracted by the origin status
the forwarded request relays. -/
structure Server where
  rateLimiter : limiter.RateLimiter

/-- An inbound request as the handler sees it: `r.RemoteAddr` and
`r.URL.Path`. -/
structure Request where
  remoteAddr : String
  path : String
deriving DecidableEq, Repr

/-- Which of the request's store calls fail: the `EXISTS` in
`IsBlocked`, the pipeline in `IsAllowed`, the `SET` in `BlockIP`. -/
structure Faults where
  isBlockedFail : Bool
  pipeFail : Bool
  blockSetFail : Bool
deriving DecidableEq, Repr

/-- Outcome of one request through the handler: the HTTP status written
to the client, whether the request was forwarded to the origin, and the
resulting store and metrics states. -/
structure HandlerResult where
  status : Nat
  forwarded : Bool
  store : Store
  metrics : Metrics

/-- The deferred `ObserveRequestDuration` that fires on every exit of
the handler, against the request's path label. -/
def finishWith (req : Request) (h : HandlerResult) : HandlerResult :=
  { h with metrics := h.metrics.observeRequestDuration req.path }

/-- `Server.handler` for a single request.  Mirrors the Go control
flow: the deferred `ObserveRequestDuration` fires on every exit; then
`IsBlocked` (error → 500; true → 429 + blocked metric); then
`IsAllowed` (error → 500; false → 429 + blocked metric); else forward
to the origin (relaying `originStatus`) and record a success metric. -/
def Server.handler (srv : Server) (s : Store) (m : Metrics) (req : Request)
    (originStatus : Nat) (f : Faults) : HandlerResult :=
  if (srv.rateLimiter.IsBlocked s req.remoteAddr f.isBlockedFail).2 then
    finishWith req ⟨500, false, s, m⟩
  else if (srv.rateLimiter.IsBlocked s req.remoteAddr f.isBlockedFail).1 then
    finishWith req ⟨429, false, s, m.incBlockedRequests req.remoteAddr⟩
  else if (srv.rateLimiter.IsAllowed s req.remoteAddr f.pipeFail f.blockSetFail).errp then
    finishWith req
      ⟨500, false, (srv.rateLimiter.IsAllowed s req.remoteAddr f.pipeFail f.blockSetFail).store, m⟩
  else if !(srv.rateLimiter.IsAllowed s req.remoteAddr f.pipeFail f.blockSetFail).ok then
    finishWith req
      ⟨429, false, (srv.rateLimiter.IsAllowed s req.remoteAddr f.pipeFail f.blockSetFail).store,
        m.incBlockedRequests req.remoteAddr⟩
  else
    finishWith req
      ⟨originStatus, true,
        (srv.rateLimiter.IsAllowed s req.remoteAddr f.pipeFail f.blockSetFail).store,
        m.incSuccessfulRequests req.remoteAddr⟩

/-- A request script for the gateway: each element is a request together
with its origin status and the fault pattern of its store calls. -/
def Server.handlerSeq (srv : Server) (s : Store) (m : Metrics) :
    List (Request × Nat × Faults) → List (Nat × Bool) × Store
  | [] => ([], s)
  | (req, origin, f) :: rest =>
      let h := srv.handler s m req origin f
      let t := srv.handlerSeq h.store h.metrics rest
      ((h.status, h.forwarded) :: t.1, t.2)

end proxy

/-- The counter value currently stored for an identity (0 if absent),
as read by `IsAllowed`'s increment. -/
def counterVal (s : Store) (ip : String) : Int :=
  match s (limiter.rateKey ip) with
  | some e => e.val
  | none => 0

/-! ## Statement shapes for the claims, and concrete fixtures -/

/-- Behaviour of `IsAllowed` around the threshold: allowed with nil
error at or under the threshold; over the threshold the boolean is
`false`, the error mirrors the block-record write's outcome, and a
successful write leaves the block record with the full block-duration
TTL. -/
def isAllowedThresholdProp (cfg : limiter.Config) (s : Store) (ip : String)
    (bf : Bool) : Prop :=
  (counterVal s ip + 1 ≤ cfg.RequestsPerMinute →
    limiter.RateLimiter.IsAllowed ⟨cfg⟩ s ip false bf =
      ⟨true, false, limiter.pipelineStore s ip⟩) ∧
  (cfg.RequestsPerMinute < counterVal s ip + 1 →
    (limiter.RateLimiter.IsAllowed ⟨cfg⟩ s ip false bf).ok = false ∧
    (limiter.RateLimiter.IsAllowed ⟨cfg⟩ s ip false bf).errp = bf ∧
    (bf = false →
      (limiter.RateLimiter.IsAllowed ⟨cfg⟩ s ip false bf).store
          (limiter.blockedKey ip) = some ⟨1, some cfg.BlockDuration⟩))

/-- Outcome of the handler on a request whose identity is blocked:
429, no forwarding, store untouched, exactly one blocked metric for the
identity, success metrics untouched. -/
def blockedRejectProp (srv : proxy.Server) (s : Store) (m : proxy.Metrics)
    (req : proxy.Request) (origin : Nat) (f : proxy.Faults) : Prop :=
  (srv.handler s m req origin f).status = 429 ∧
  (srv.handler s m req origin f).forwarded = false ∧
  (srv.handler s m req origin f).store = s ∧
  (srv.handler s m req origin f).metrics.blockedRequests req.remoteAddr =
    m.blockedRequests req.remoteAddr + 1 ∧
  (∀ ip2, ip2 ≠ req.remoteAddr →
    (srv.handler s m req origin f).metrics.blockedRequests ip2 = m.blockedRequests ip2) ∧
  (srv.handler s m req origin f).metrics.successRequests = m.successRequests

/-- The whole store (in particular the identity's counter entry, value
and TTL alike) is left unchanged by the handler. -/
def handlerStoreUnchangedProp (srv : proxy.Server) (s : Store) (m : proxy.Metrics)
    (req : proxy.Request) (origin : Nat) (f : proxy.Faults) : Prop :=
  (srv.handler s m req origin f).store = s

/-- Outcome of the handler when a store call fails: 500, no
forwarding, and neither the blocked nor the success counters move. -/
def storeErrorProp (srv : proxy.Server) (s : Store) (m : proxy.Metrics)
    (req : proxy.Request) (origin : Nat) (f : proxy.Faults) : Prop :=
  (srv.handler s m req origin f).status = 500 ∧
  (srv.handler s m req origin f).forwarded = false ∧
  (srv.handler s m req origin f).metrics.blockedRequests = m.blockedRequests ∧
  (srv.handler s m req origin f).metrics.successRequests = m.successRequests

/-- Two consecutive over-limit `IsAllowed` calls: both return `false`
and both leave the block record at value 1 with TTL exactly the full
configured block duration. -/
def blockIdempotentProp (cfg : limiter.Config) (s : Store) (ip : String) : Prop :=
  (limiter.RateLimiter.IsAllowed ⟨cfg⟩ s ip false false).ok = false ∧
  (limiter.RateLimiter.IsAllowed ⟨cfg⟩ s ip false false).store (limiter.blockedKey ip) =
    some ⟨1, some cfg.BlockDuration⟩ ∧
  (limiter.RateLimiter.IsAllowed ⟨cfg⟩
      (limiter.RateLimiter.IsAllowed ⟨cfg⟩ s ip false false).store ip false false).ok = false ∧
  (limiter.RateLimiter.IsAllowed ⟨cfg⟩
      (limiter.RateLimiter.IsAllowed ⟨cfg⟩ s ip false false).store ip false false).store
      (limiter.blockedKey ip) = some ⟨1, some cfg.BlockDuration⟩

/-- Outcome of the handler on a request that passes both checks: the
origin's status is relayed, the request is forwarded, the identity's
success counter moves up by exactly one (others untouched), blocked
counters untouched. -/
def forwardSuccessProp (srv : proxy.Server) (s : Store) (m : proxy.Metrics)
    (req : proxy.Request) (origin : Nat) (f : proxy.Faults) : Prop :=
  (srv.handler s m req origin f).status = origin ∧
  (srv.handler s m req origin f).forwarded = true ∧
  (srv.handler s m req origin f).metrics.successRequests req.remoteAddr =
    m.successRequests req.remoteAddr + 1 ∧
  (∀ ip2, ip2 ≠ req.remoteAddr →
    (srv.handler s m req origin f).metrics.successRequests ip2 = m.successRequests ip2) ∧
  (srv.handler s m req origin f).metrics.blockedRequests = m.blockedRequests

/-- The empty store. -/
def emptyStore : Store := fun _ => none

/-- All-zero metrics. -/
def zeroMetrics : proxy.Metrics := ⟨fun _ => 0, fun _ => 0, fun _ => 0⟩

/-- A store in which identity `a` is blocked and its counter stands at
5 with 9ns of TTL left. -/
def blockedStoreA : Store := fun k =>
  if k = "blocked:a" then some ⟨1, some 30⟩
  else if k = "rate:a" then some ⟨5, some 9⟩
  else none

/-- A store in which identity `a` has a counter at 2 and no block. -/
def overStoreA : Store := fun k =>
  if k = "rate:a" then some ⟨2, some 3⟩ else none

/-! ## Basic evaluation lemmas -/

theorem incr_val (s : Store) (ip : String) :
    (Store.incr s (limiter.rateKey ip)).1 = counterVal s ip + 1 := by
  unfold Store.incr counterVal
  cases s (limiter.rateKey ip) <;> simp

theorem incr_store_at (s : Store) (ip : String) :
    (Store.incr s (limiter.rateKey ip)).2 (limiter.rateKey ip) =
      some ⟨counterVal s ip + 1, ((s (limiter.rateKey ip)).map Entry.ttl).join⟩ := by
  unfold Store.incr counterVal Store.set
  cases s (limiter.rateKey ip) <;> simp

theorem expire_at (s : Store) (k : String) (d : Nat) (e : Entry) (h : s k = some e) :
    Store.expire s k d k = some ⟨e.val, some d⟩ := by
  unfold Store.expire Store.set
  rw [h]
  simp

/-- The store after the successful counter pipeline of `IsAllowed`:
counter incremented and TTL armed to one minute. -/
theorem pipeline_store_at (s : Store) (ip : String) :
    limiter.pipelineStore s ip (limiter.rateKey ip) =
      some ⟨counterVal s ip + 1, some timeMinute⟩ := by
  unfold limiter.pipelineStore
  rw [expire_at _ _ _ _ (incr_store_at s ip)]

/-- The counter pipeline touches only the identity's own counter key. -/
theorem pipeline_store_other (s : Store) (ip : String) (k : String)
    (h : k ≠ limiter.rateKey ip) : limiter.pipelineStore s ip k = s k := by
  unfold limiter.pipelineStore Store.expire Store.incr Store.set
  cases hs : s (limiter.rateKey ip) <;> simp [hs, h]

theorem blockIP_fst (r : limiter.RateLimiter) (s : Store) (ip : String) (sf : Bool) :
    (r.BlockIP s ip sf).1 = sf := by
  cases sf <;> rfl

theorem blockIP_snd_ok (r : limiter.RateLimiter) (s : Store) (ip : String) :
    (r.BlockIP s ip false).2 = s.setVal (limiter.blockedKey ip) 1 r.config.BlockDuration :=
  rfl

/-- Evaluation of `IsAllowed` with a working pipeline, phrased by cases
on the post-increment count. -/
theorem isAllowed_eval (r : limiter.RateLimiter) (s : Store) (ip : String) (bf : Bool) :
    r.IsAllowed s ip false bf =
      if counterVal s ip + 1 > r.config.RequestsPerMinute then
        ⟨false, (r.BlockIP (limiter.pipelineStore s ip) ip bf).1,
          (r.BlockIP (limiter.pipelineStore s ip) ip bf).2⟩
      else ⟨true, false, limiter.pipelineStore s ip⟩ := by
  unfold limiter.RateLimiter.IsAllowed
  rw [incr_val]
  simp

theorem setVal_at (s : Store) (k : String) (v : Int) (d : Nat) :
    s.setVal k v d k = some ⟨v, some d⟩ := by
  unfold Store.setVal Store.set
  simp

theorem setVal_other (s : Store) (k k2 : String) (v : Int) (d : Nat) (h : k2 ≠ k) :
    s.setVal k v d k2 = s k2 := by
  unfold Store.setVal Store.set
  simp [h]

theorem rateKey_ne_blockedKey (ip : String) :
    limiter.rateKey ip ≠ limiter.blockedKey ip := by
  intro h
  have hl := congrArg String.length h
  simp [limiter.rateKey, limiter.blockedKey, String.length_append] at hl
  exact absurd hl (by decide)

/-- `IsBlocked` with a working store call answers exactly key
existence of `blocked:<ip>` with a nil error. -/
theorem isBlocked_eval (r : limiter.RateLimiter) (s : Store) (ip : String) :
    r.IsBlocked s ip false = ((s (limiter.blockedKey ip)).isSome, false) := by
  unfold limiter.RateLimiter.IsBlocked Store.existsKey
  cases s (limiter.blockedKey ip) <;> simp

/-- An over-limit `IsAllowed` call with working store: counter pipeline
runs, the block record is written, `(false, nil)` is returned. -/
theorem isAllowed_over (cfg : limiter.Config) (s : Store) (ip : String)
    (h : cfg.RequestsPerMinute ≤ counterVal s ip) :
    limiter.RateLimiter.IsAllowed ⟨cfg⟩ s ip false false =
      ⟨false, false,
        (limiter.pipelineStore s ip).setVal (limiter.blockedKey ip) 1 cfg.BlockDuration⟩ := by
  rw [isAllowed_eval]
  dsimp only
  rw [if_pos (by omega), blockIP_fst, blockIP_snd_ok]

/-- After an over-limit call's store updates, the counter reads one
higher than before (the block write does not touch the counter key). -/
theorem counterVal_after_block (s : Store) (ip : String) (d : Nat) :
    counterVal ((limiter.pipelineStore s ip).setVal (limiter.blockedKey ip) 1 d) ip =
      counterVal s ip + 1 := by
  unfold counterVal
  rw [setVal_other _ _ _ _ _ (rateKey_ne_blockedKey ip), pipeline_store_at]
  rfl

/-! ## The claims -/

/-- Claim C1: for every identity and every configured positive
threshold, `IsAllowed` returns `(true, nil)` when the post-increment
counter value is at most the threshold; when the counter value exceeds
the threshold it returns `false`, (re-)writes the block record for the
identity with TTL equal to the configured block duration whenever that
write succeeds, and the returned error is non-nil exactly when the
block-record write itself failed — the boolean is `false` regardless
of that write's outcome. -/
theorem C1_isAllowed_threshold (cfg : limiter.Config) (s : Store) (ip : String)
    (bf : Bool) (_hT : 0 < cfg.RequestsPerMinute) :
    isAllowedThresholdProp cfg s ip bf := by
  unfold isAllowedThresholdProp
  rw [isAllowed_eval]
  dsimp only
  constructor
  · intro h
    rw [if_neg (by omega)]
  · intro h
    rw [if_pos (by omega)]
    refine ⟨rfl, blockIP_fst _ _ _ _, fun hbf => ?_⟩
    subst hbf
    rw [blockIP_snd_ok]
    dsimp only
    rw [setVal_at]

/-- Witness for C1: threshold 2, empty store, identity `a`. -/
theorem C1_isAllowed_threshold_witness :
    (0 : Int) < (⟨2, 0, 5⟩ : limiter.Config).RequestsPerMinute ∧
    isAllowedThresholdProp ⟨2, 0, 5⟩ emptyStore "a" false :=
  ⟨by decide, C1_isAllowed_threshold ⟨2, 0, 5⟩ emptyStore "a" false (by decide)⟩

/-- Claim C4: every `IsAllowed` call submits the counter increment and
the arming of the counter's one-minute TTL as one pipelined unit: when
the pipeline fails nothing at all is written, and when it executes the
counter is incremented and its TTL is re-armed to the window length on
every call — not only when the key is first created. -/
theorem C4_pipeline_atomic_ttl (cfg : limiter.Config) (s : Store) (ip : String) (bf : Bool) :
    (limiter.RateLimiter.IsAllowed ⟨cfg⟩ s ip true bf).store = s ∧
    (limiter.RateLimiter.IsAllowed ⟨cfg⟩ s ip false bf).store (limiter.rateKey ip) =
      some ⟨counterVal s ip + 1, some timeMinute⟩ := by
  refine ⟨rfl, ?_⟩
  rw [isAllowed_eval]
  dsimp only
  split
  · cases bf
    · rw [blockIP_snd_ok]
      dsimp only
      rw [setVal_other _ _ _ _ _ (rateKey_ne_blockedKey ip), pipeline_store_at]
    · exact pipeline_store_at s ip
  · exact pipeline_store_at s ip

/-- Claim C5: `IsBlocked` returns `true` exactly when the
`blocked:<identity>` record exists, with nil error and no store
mutation; the result reads nothing but that key, so it is independent
of the identity's counter value. -/
theorem C5_isBlocked_exists (r : limiter.RateLimiter) (s : Store) (ip : String) :
    ((r.IsBlocked s ip false).1 = true ↔ (s (limiter.blockedKey ip)).isSome = true) ∧
    r.IsBlocked s ip false = ((s (limiter.blockedKey ip)).isSome, false) := by
  rw [isBlocked_eval]
  exact ⟨Iff.rfl, rfl⟩

/-- Claim C7: repeated over-limit `IsAllowed` calls re-write the block
record each time with the same value and with TTL reset to exactly the
full configured block duration — never shorter, never longer. -/
theorem C7_block_idempotent (cfg : limiter.Config) (s : Store) (ip : String)
    (h : cfg.RequestsPerMinute ≤ counterVal s ip) :
    blockIdempotentProp cfg s ip := by
  unfold blockIdempotentProp
  rw [isAllowed_over cfg s ip h]
  dsimp only
  rw [isAllowed_over cfg _ ip (by rw [counterVal_after_block]; omega)]
  refine ⟨rfl, ?_, rfl, ?_⟩ <;> exact setVal_at _ _ _ _

/-- Witness for C7: threshold 2, counter already at 2 for identity
`a`. -/
theorem C7_block_idempotent_witness :
    (⟨2, 0, 7⟩ : limiter.Config).RequestsPerMinute ≤ counterVal overStoreA "a" ∧
    blockIdempotentProp ⟨2, 0, 7⟩ overStoreA "a" :=
  ⟨by decide, C7_block_idempotent ⟨2, 0, 7⟩ overStoreA "a" (by decide)⟩

/-- Claim C9: neither `IsAllowed` nor `IsBlocked` ever returns `true`
together with a non-nil error: whenever the error is non-nil, the
boolean is `false`. -/
theorem C9_no_true_with_error (r : limiter.RateLimiter) (s : Store) (ip : String)
    (pf bf xf : Bool) :
    ((r.IsAllowed s ip pf bf).ok && (r.IsAllowed s ip pf bf).errp) = false ∧
    ((r.IsBlocked s ip xf).1 && (r.IsBlocked s ip xf).2) = false := by
  constructor
  · cases pf
    · rw [isAllowed_eval]
      split <;> simp
    · rfl
  · cases xf
    · rw [isBlocked_eval]
      simp
    · rfl

/-- Claim C2: when the block check answers `true`, the handler responds
429, records exactly one blocked-request metric for the identity, does
not forward, and never reaches `IsAllowed`, so the store — in
particular the identity's request counter — is left unchanged. -/
theorem C2_blocked_reject (srv : proxy.Server) (s : Store) (m : proxy.Metrics)
    (req : proxy.Request) (origin : Nat) (f : proxy.Faults)
    (hb : (s (limiter.blockedKey req.remoteAddr)).isSome = true)
    (hf : f.isBlockedFail = false) :
    blockedRejectProp srv s m req origin f := by
  unfold blockedRejectProp proxy.Server.handler
  rw [hf, isBlocked_eval, hb]
  simp only [Bool.true_eq_false, if_false, if_true, proxy.finishWith,
    proxy.Metrics.observeRequestDuration, proxy.Metrics.incBlockedRequests]
  refine ⟨rfl, rfl, rfl, by simp, fun ip2 h2 => by simp [h2], rfl⟩

/-- Witness for C2: identity `a` blocked in `blockedStoreA`, no store
faults. -/
theorem C2_blocked_reject_witness :
    (blockedStoreA (limiter.blockedKey "a")).isSome = true ∧
    (⟨false, false, false⟩ : proxy.Faults).isBlockedFail = false ∧
    blockedRejectProp ⟨⟨⟨2, 0, 5⟩⟩⟩ blockedStoreA zeroMetrics ⟨"a", "/p"⟩ 200
      ⟨false, false, false⟩ :=
  ⟨by decide, rfl,
    C2_blocked_reject ⟨⟨⟨2, 0, 5⟩⟩⟩ blockedStoreA zeroMetrics ⟨"a", "/p"⟩ 200
      ⟨false, false, false⟩ (by decide) rfl⟩

/-- Claim C3 (amended): a blocked identity's requests are rejected by
the handler at the block check, before `IsAllowed` runs, so they leave
the store — the identity's request counter value and its TTL included
— entirely unchanged; the counter is only incremented and re-armed by
requests that pass the block check. -/
theorem C3_blocked_request_skips_counter (srv : proxy.Server) (s : Store)
    (m : proxy.Metrics) (req : proxy.Request) (origin : Nat) (f : proxy.Faults)
    (hb : (s (limiter.blockedKey req.remoteAddr)).isSome = true)
    (hf : f.isBlockedFail = false) :
    handlerStoreUnchangedProp srv s m req origin f := by
  unfold handlerStoreUnchangedProp proxy.Server.handler
  rw [hf, isBlocked_eval, hb]
  simp [proxy.finishWith]

/-- Witness for the amended C3. -/
theorem C3_blocked_request_skips_counter_witness :
    (blockedStoreA (limiter.blockedKey "a")).isSome = true ∧
    (⟨false, false, false⟩ : proxy.Faults).isBlockedFail = false ∧
    handlerStoreUnchangedProp ⟨⟨⟨2, 0, 5⟩⟩⟩ blockedStoreA zeroMetrics ⟨"a", "/p"⟩ 200
      ⟨false, false, false⟩ :=
  ⟨by decide, rfl,
    C3_blocked_request_skips_counter ⟨⟨⟨2, 0, 5⟩⟩⟩ blockedStoreA zeroMetrics ⟨"a", "/p"⟩ 200
      ⟨false, false, false⟩ (by decide) rfl⟩

/-- Counterexample to C3 as stated: identity `a` is blocked, its
counter stands at 5 with 9ns of TTL left, and a further request through
the handler leaves the counter entry exactly as it was — it is neither
incremented to 6 nor re-armed to the one-minute window. -/
theorem C3_counterexample :
    (proxy.Server.handler ⟨⟨⟨2, 0, 5⟩⟩⟩ blockedStoreA zeroMetrics ⟨"a", "/p"⟩ 200
        ⟨false, false, false⟩).store (limiter.rateKey "a") = some ⟨5, some 9⟩ ∧
    (proxy.Server.handler ⟨⟨⟨2, 0, 5⟩⟩⟩ blockedStoreA zeroMetrics ⟨"a", "/p"⟩ 200
        ⟨false, false, false⟩).store (limiter.rateKey "a") ≠
      some ⟨counterVal blockedStoreA "a" + 1, some timeMinute⟩ := by
  constructor
  · decide
  · decide

/-- Claim C6: when a store call made during the request fails — the
block check errs, or the block check passes and the rate check errs —
the handler responds 500, does not forward, and moves neither the
blocked-request nor the successful-request counters. -/
theorem C6_store_error_500 (srv : proxy.Server) (s : Store) (m : proxy.Metrics)
    (req : proxy.Request) (origin : Nat) (f : proxy.Faults)
    (h : (srv.rateLimiter.IsBlocked s req.remoteAddr f.isBlockedFail).2 = true ∨
      (srv.rateLimiter.IsBlocked s req.remoteAddr f.isBlockedFail = (false, false) ∧
        (srv.rateLimiter.IsAllowed s req.remoteAddr f.pipeFail f.blockSetFail).errp = true)) :
    storeErrorProp srv s m req origin f := by
  unfold storeErrorProp proxy.Server.handler
  rcases h with h | ⟨h1, h2⟩
  · rw [h]
    simp [proxy.finishWith, proxy.Metrics.observeRequestDuration]
  · rw [h1, h2]
    simp [proxy.finishWith, proxy.Metrics.observeRequestDuration]

/-- Witness for C6: the block check's EXISTS call fails. -/
theorem C6_store_error_500_witness :
    ((⟨⟨⟨2, 0, 5⟩⟩⟩ : proxy.Server).rateLimiter.IsBlocked emptyStore "a"
        (⟨true, false, false⟩ : proxy.Faults).isBlockedFail).2 = true ∧
    storeErrorProp ⟨⟨⟨2, 0, 5⟩⟩⟩ emptyStore zeroMetrics ⟨"a", "/p"⟩ 200
      ⟨true, false, false⟩ :=
  ⟨rfl,
    C6_store_error_500 ⟨⟨⟨2, 0, 5⟩⟩⟩ emptyStore zeroMetrics ⟨"a", "/p"⟩ 200
      ⟨true, false, false⟩ (Or.inl rfl)⟩

/-- Claim C8: the configured burst size has no effect on admission:
under two configurations differing only in `BurstSize`, `IsAllowed` and
`IsBlocked` return identical results with identical store writes, and
so does the whole handler over any sequence of requests. -/
theorem C8_burst_irrelevant (cfg : limiter.Config) (b : Int) (s : Store) (ip : String)
    (pf bf xf : Bool) (m : proxy.Metrics)
    (reqs : List (proxy.Request × Nat × proxy.Faults)) :
    limiter.RateLimiter.IsAllowed ⟨{cfg with BurstSize := b}⟩ s ip pf bf =
      limiter.RateLimiter.IsAllowed ⟨cfg⟩ s ip pf bf ∧
    limiter.RateLimiter.IsBlocked ⟨{cfg with BurstSize := b}⟩ s ip xf =
      limiter.RateLimiter.IsBlocked ⟨cfg⟩ s ip xf ∧
    proxy.Server.handlerSeq ⟨⟨{cfg with BurstSize := b}⟩⟩ s m reqs =
      proxy.Server.handlerSeq ⟨⟨cfg⟩⟩ s m reqs := by
  refine ⟨rfl, rfl, ?_⟩
  induction reqs generalizing s m with
  | nil => rfl
  | cons head tail ih =>
      obtain ⟨req, origin, fa⟩ := head
      simp only [proxy.Server.handlerSeq]
      rw [show proxy.Server.handler ⟨⟨{cfg with BurstSize := b}⟩⟩ s m req origin fa =
        proxy.Server.handler ⟨⟨cfg⟩⟩ s m req origin fa from rfl]
      rw [ih]

/-- Claim C10: a request that passes both the block check and the rate
check is forwarded, relays whatever status the origin returned, and
bumps the identity's successful-request counter by exactly one
(regardless of the origin's status code), leaving blocked-request
counters untouched. -/
theorem C10_forward_success (srv : proxy.Server) (s : Store) (m : proxy.Metrics)
    (req : proxy.Request) (origin : Nat) (f : proxy.Faults)
    (h1 : f.isBlockedFail = false)
    (h2 : s (limiter.blockedKey req.remoteAddr) = none)
    (h3 : f.pipeFail = false)
    (h4 : counterVal s req.remoteAddr + 1 ≤ srv.rateLimiter.config.RequestsPerMinute) :
    forwardSuccessProp srv s m req origin f := by
  have hib : srv.rateLimiter.IsBlocked s req.remoteAddr f.isBlockedFail = (false, false) := by
    rw [h1, isBlocked_eval, h2]
    rfl
  have hia : srv.rateLimiter.IsAllowed s req.remoteAddr f.pipeFail f.blockSetFail =
      ⟨true, false, limiter.pipelineStore s req.remoteAddr⟩ := by
    rw [h3, isAllowed_eval, if_neg (by omega)]
  unfold forwardSuccessProp proxy.Server.handler
  rw [hib, hia]
  exact ⟨rfl, rfl,
    by simp [proxy.finishWith, proxy.Metrics.observeRequestDuration,
      proxy.Metrics.incSuccessfulRequests],
    fun ip2 hip2 => by simp [proxy.finishWith, proxy.Metrics.observeRequestDuration,
      proxy.Metrics.incSuccessfulRequests, hip2],
    rfl⟩

/-- Witness for C10: empty store, threshold 2, origin answering 503. -/
theorem C10_forward_success_witness :
    (⟨false, false, false⟩ : proxy.Faults).isBlockedFail = false ∧
    emptyStore (limiter.blockedKey "a") = none ∧
    (⟨false, false, false⟩ : proxy.Faults).pipeFail = false ∧
    counterVal emptyStore "a" + 1 ≤
      (⟨⟨⟨2, 0, 5⟩⟩⟩ : proxy.Server).rateLimiter.config.RequestsPerMinute ∧
    forwardSuccessProp ⟨⟨⟨2, 0, 5⟩⟩⟩ emptyStore zeroMetrics ⟨"a", "/p"⟩ 503
      ⟨false, false, false⟩ :=
  ⟨rfl, rfl, rfl, by decide,
    C10_forward_success ⟨⟨⟨2, 0, 5⟩⟩⟩ emptyStore zeroMetrics ⟨"a", "/p"⟩ 503
      ⟨false, false, false⟩ rfl rfl rfl (by decide)⟩

end Shielder
